import Mathlib

/-!
Verification of the fizz-backend streaming turn orchestrator.

Shallow embedding of the Express route handlers in `server/routes.ts`
(POST /api/messages, POST /api/messages/poll, POST /api/debate,
DELETE /api/messages/:id), the persona catalog in `shared/personas.ts`,
and the relevant parts of `server/storage.ts`.

External collaborators (the OpenAI streaming client, DALL-E, the database)
are modelled as pure oracle fields of an environment record; each handler
is a pure function from that environment to a result trace recording the
HTTP response, the final anonymous-session counter, the persisted
messages, the SSE events written, and the outbound upstream calls made.
-/

namespace Fizz

/-! ## JSON-ish values for request bodies (zod parsing model) -/

/-- A request-body field value as seen by zod: either a string or some
non-string JSON value. Absent fields are `Option.none` at the field site. -/
inductive JsonVal where
  | str (s : String)
  | other
deriving DecidableEq, Repr

/-- Raw body of POST /api/messages: the three fields of
`clientMessageSchema`, each possibly absent. -/
structure RawBody where
  conversationId : Option JsonVal
  content : Option JsonVal
  imageUrl : Option JsonVal
deriving DecidableEq, Repr

/-- Parsed client message, as produced by `clientMessageSchema.parse`. -/
structure ValidatedData where
  conversationId : String
  content : String
  imageUrl : Option String
deriving DecidableEq, Repr

/-- zod `clientMessageSchema`: `conversationId` and `content` must be
strings, `imageUrl` is an optional string (absent ok, non-string not). -/
def clientMessageSchemaParse (b : RawBody) : Option ValidatedData :=
  match b.conversationId, b.content, b.imageUrl with
  | some (.str cid), some (.str c), none => some ⟨cid, c, none⟩
  | some (.str cid), some (.str c), some (.str u) => some ⟨cid, c, some u⟩
  | _, _, _ => none

/-- JS truthiness of the optional `imageUrl` field
(`if (validatedData.imageUrl)`). -/
def imagePresent (v : ValidatedData) : Bool :=
  match v.imageUrl with
  | some u => u ≠ ""
  | none => false

/-- HTTP responses produced by the handlers before or instead of a stream,
plus the streaming/JSON success shapes. -/
inductive HttpResponse where
  /-- 400 with the given error tag. -/
  | badRequest (tag : String)
  /-- 429 message-limit response carrying limit and current count. -/
  | tooMany (limit count : Nat)
  /-- 404 conversation not found. -/
  | notFound
  /-- 403 access denied. -/
  | forbidden
  /-- 401 authentication required for custom personas. -/
  | unauthorizedCustom
  /-- SSE stream response (events recorded separately in the trace). -/
  | sse
  /-- Poll-mode JSON success body. -/
  | pollOk (userMessage aiMessage : String) (content : String)
  /-- 204 No Content. -/
  | noContent
deriving DecidableEq, Repr

/-- JS `s.startsWith(p)`, computed on the character lists (equivalent to
`String.startsWith`; stated this way so that concrete instances reduce in
the kernel). -/
def jsStartsWith (s p : String) : Bool :=
  p.data.isPrefixOf s.data

/-- Validation phase of both message endpoints (routes.ts lines 456-485 and
260-290): schema parse, then image-URL format and minimum-size checks.
Returns the 400 response on failure. -/
def validateMessageBody (b : RawBody) : Except HttpResponse ValidatedData :=
  match clientMessageSchemaParse b with
  | none => .error (.badRequest "Invalid request data")
  | some v =>
    match v.imageUrl with
    | some u =>
      if u ≠ "" then
        let isDataUri := jsStartsWith u "data:image/"
        let isHttpUrl := jsStartsWith u "http://" || jsStartsWith u "https://"
        if !isDataUri && !isHttpUrl then
          .error (.badRequest "Invalid image format")
        else if isDataUri && u.length < 100 then
          .error (.badRequest "Invalid image data")
        else
          .ok v
      else .ok v
    | none => .ok v

/-- `const MESSAGE_LIMIT = 15` (routes.ts line 39). -/
def MESSAGE_LIMIT : Nat := 15

/-! ## Persona catalog (shared/personas.ts) -/

/-- `PersonaDefinition` from shared/personas.ts. -/
structure PersonaDefinition where
  id : String
  name : String
  icon : String
  description : String
  systemPrompt : String
deriving DecidableEq, Repr

/-- The built-in persona catalog (shared/personas.ts lines 9-73). -/
def personas : List PersonaDefinition :=
  [ ⟨"general", "Fizz", "○", "Your versatile AI assistant for anything",
      "You are Fizz, a helpful and friendly AI assistant! 😊 Be direct and concise, but always warm and encouraging."⟩,
    ⟨"code-expert", "Code Expert", "💻", "Master programmer and software architect",
      "You are a code expert! 💻"⟩,
    ⟨"creative-writer", "Creative Writer", "✍️", "Imaginative storyteller and wordsmith",
      "You are a creative writer! ✍️✨"⟩,
    ⟨"teacher", "Patient Teacher", "📚", "Kind educator who makes learning easy",
      "You are a patient, encouraging teacher! 🎓"⟩,
    ⟨"business-advisor", "Business Advisor", "💼", "Strategic consultant for entrepreneurs",
      "You are a strategic business consultant! 💼📊"⟩,
    ⟨"wellness-coach", "Wellness Coach", "💪", "Motivational health and fitness guide",
      "You are a wellness coach! 💪🌟"⟩,
    ⟨"science-expert", "Science Expert", "🔬", "Research scientist with deep knowledge",
      "You are a science expert! 🔬🧪"⟩,
    ⟨"travel-guide", "Travel Guide", "🌍", "World explorer with insider tips",
      "You are a travel guide! 🌍✈️"⟩,
    ⟨"viral-hook", "Viral Hook Generator", "🔥", "Creates content hooks that go viral",
      "You are a viral content expert! 🔥📱"⟩ ]

/-- `getPersonaById` (shared/personas.ts lines 75-77):
`personas.find(p => p.id === id) ?? personas[0]`. -/
def getPersonaById (id : String) : PersonaDefinition :=
  match personas.find? (fun p => p.id = id) with
  | some p => p
  | none => personas.headD ⟨"", "", "", "", ""⟩

/-- `getPersonaSystemPrompt` (shared/personas.ts lines 79-81). -/
def getPersonaSystemPrompt (id : String) : String :=
  (getPersonaById id).systemPrompt

/-- Debate display-name lookup (routes.ts lines 1675-1676):
`personas.find(p => p.id === personaN)?.name || fallback`. -/
def debateDisplayName (id fallback : String) : String :=
  match personas.find? (fun p => p.id = id) with
  | some p => if p.name = "" then fallback else p.name
  | none => fallback

/-! ## Tool-call accumulator (routes.ts lines 683-697)

The source accumulates into a JS array indexed by the fragment's `index`.
Assigning past the current length produces a sparse array whose holes read
as `undefined`; we model the array as a `List (Option ToolSlot)` where
`none` is a hole. -/

/-- A reassembled tool-call slot:
`{id, type: "function", function: {name, arguments}}`. -/
structure ToolSlot where
  id : String
  name : String
  arguments : String
deriving DecidableEq, Repr

/-- One `delta.tool_calls` element: index plus the present-or-absent
pieces, with JS `|| ""` collapsing absent and empty. -/
structure ToolCallFragment where
  index : Nat
  id : String
  name : String
  arguments : String
deriving DecidableEq, Repr

/-- Read `arr[i]` on a possibly-sparse JS array: out of range and holes
both read as `undefined`. -/
def jsGet (arr : List (Option ToolSlot)) (i : Nat) : Option ToolSlot :=
  arr.getD i none

/-- Write `arr[i] = v` on a JS array, extending with holes as needed. -/
def jsSet (arr : List (Option ToolSlot)) (i : Nat) (v : ToolSlot) :
    List (Option ToolSlot) :=
  (arr ++ List.replicate (i + 1 - arr.length) none).set i (some v)

/-- Ingest one tool-call fragment (routes.ts lines 684-696): allocate the
slot on first sight of this index, then append any argument text. -/
def ingestFragment (arr : List (Option ToolSlot)) (f : ToolCallFragment) :
    List (Option ToolSlot) :=
  let arr1 :=
    if (jsGet arr f.index).isNone then
      jsSet arr f.index ⟨f.id, f.name, ""⟩
    else arr
  if f.arguments = "" then arr1
  else
    match jsGet arr1 f.index with
    | some s => jsSet arr1 f.index ⟨s.id, s.name, s.arguments ++ f.arguments⟩
    | none => arr1

/-! ## Streamed deltas and the primary stream loop (routes.ts 672-698) -/

/-- One upstream chunk's delta: text content (`|| ""`) and tool-call
fragments (possibly empty). -/
structure StreamDelta where
  content : String
  toolCalls : List ToolCallFragment
deriving DecidableEq, Repr

/-- A row written to the `messages` table by `storage.createMessage`
(id and timestamp elided: they are generated server-side and no claim
depends on them). -/
structure PersistedMessage where
  conversationId : String
  role : String
  content : String
  imageUrl : Option String
deriving DecidableEq, Repr

/-- SSE events written with `res.write` (event frame payload types). -/
inductive SSEvent where
  | userMessage (m : PersistedMessage)
  | token (s : String)
  | tokenSpeaker (speakerId s : String)
  | speaker (name : String)
  | upgradeRequired
  | image (url prompt : String)
  | suggestions (l : List String)
  | complete (m : PersistedMessage)
  | debateComplete (success : Bool) (rounds : Nat)
  | error (msg : String)
deriving DecidableEq, Repr

/-- Outbound upstream calls, recorded for the claims about what gets
invoked. `chatCall` carries the system-message text of the request. -/
inductive Effect where
  | chatCall (system : String)
  | chatCallTools
  | imagesGenerate (prompt : String)
  | suggestionsCall
deriving DecidableEq, Repr

/-- Accumulator state of the primary streaming loop. -/
structure PrimaryAcc where
  aiResponse : String
  toolCalls : List (Option ToolSlot)
  events : List SSEvent
deriving Repr

/-- One iteration of the primary streaming loop: emit and accumulate text,
then feed tool-call fragments to the accumulator. -/
def stepDelta (acc : PrimaryAcc) (d : StreamDelta) : PrimaryAcc :=
  let acc1 :=
    if d.content = "" then acc
    else { acc with
            aiResponse := acc.aiResponse ++ d.content,
            events := acc.events ++ [.token d.content] }
  { acc1 with toolCalls := d.toolCalls.foldl ingestFragment acc1.toolCalls }

/-- The whole primary stream loop over the delivered deltas. -/
def processPrimary (deltas : List StreamDelta) : PrimaryAcc :=
  deltas.foldl stepDelta ⟨"", [], []⟩

/-! ## Storage rows and the request environment -/

/-- A row of the `conversations` table (fields the handlers read). -/
structure ConversationRec where
  userId : Option String
  title : String
  persona : String
deriving DecidableEq, Repr

/-- A row of the `users` table (fields the handlers read). -/
structure UserRec where
  plan : String
  memory : List String
deriving DecidableEq, Repr

/-- A row of the `customPersonas` table (fields the handlers read). -/
structure CustomPersonaRec where
  name : String
  systemPrompt : String
deriving DecidableEq, Repr

/-- The environment of one POST /api/messages (or /poll) request: the
caller, the session counter, pure snapshots of the storage lookups, and
pure oracles for every upstream call the handler can make. -/
structure Env where
  /-- `req.user.claims.sub` when `req.isAuthenticated()`, else `none`. -/
  auth : Option String
  /-- `req.session.unauthMessageCount || 0`. -/
  sessionCount : Nat
  /-- The request body. -/
  body : RawBody
  /-- `storage.getConversation`. -/
  conversations : String → Option ConversationRec
  /-- `storage.getUser`. -/
  users : String → Option UserRec
  /-- `storage.getCustomPersona (id, userId)`. -/
  customPersonas : String → String → Option CustomPersonaRec
  /-- The deltas the primary chat-completions stream yields. -/
  primaryDeltas : List StreamDelta
  /-- `JSON.parse(arguments).prompt`: `none` when the parse throws. -/
  parsePrompt : String → Option String
  /-- `openai.images.generate` on a prompt: `none` when the call throws,
  `some none` when it returns no url, `some (some url)` on success. -/
  dalle : String → Option (Option String)
  /-- Text chunks of the secondary (tool-result follow-up) stream. -/
  finalDeltas : List String
  /-- The parsed suggestions array: `none` when the suggestions call
  throws (JSON-parse failures already collapse to `some []` in source). -/
  suggestionsRaw : Option (List String)

/-- `userPlan = user?.plan || 'free'`, with `'free'` for anonymous
callers (routes.ts lines 708-714). -/
def planOf (env : Env) : String :=
  match env.auth with
  | none => "free"
  | some uid =>
    match env.users uid with
    | none => "free"
    | some u => if u.plan = "" then "free" else u.plan

/-- JS truthiness of a nullable string column. -/
def truthyOpt (o : Option String) : Bool :=
  match o with
  | some s => s ≠ ""
  | none => false

/-- Ownership check (routes.ts lines 509-514):
`conversation.userId && conversation.userId !== userId` for
authenticated callers only. -/
def accessDenied (auth : Option String) (conv : ConversationRec) : Bool :=
  match auth with
  | some uid => truthyOpt conv.userId && conv.userId ≠ some uid
  | none => false

/-! ## Tool execution phase (routes.ts lines 700-803) -/

/-- A `{tool_call_id, role: "tool", content}` record pushed to
`toolResults`. -/
structure ToolResult where
  tool_call_id : String
  content : String
deriving DecidableEq, Repr

/-- The denial content recorded for a free-plan image request. -/
def imageDenialText : String :=
  "Image generation is only available for Plus and Pro subscribers. Please upgrade to use this feature."

/-- Accumulated state of the tool-processing loop. -/
structure ToolPhase where
  events : List SSEvent
  effects : List Effect
  toolResults : List ToolResult
  generatedImageUrl : Option String
deriving Repr

/-- Process one well-formed tool-call slot (routes.ts lines 705-772):
the plan gate, then parse-and-generate with its try/catch; slots whose
function name is not `generate_image` are skipped silently. -/
def stepToolCall (env : Env) (acc : ToolPhase) (tc : ToolSlot) : ToolPhase :=
  if tc.name = "generate_image" then
    let userPlan := planOf env
    if userPlan ≠ "plus" && userPlan ≠ "pro" then
      { acc with
        events := acc.events ++ [.upgradeRequired],
        toolResults := acc.toolResults ++ [⟨tc.id, imageDenialText⟩] }
    else
      match env.parsePrompt tc.arguments with
      | none =>
        { acc with toolResults := acc.toolResults ++ [⟨tc.id, "Failed to generate image"⟩] }
      | some p =>
        match env.dalle p with
        | none =>
          { acc with
            effects := acc.effects ++ [.imagesGenerate p],
            toolResults := acc.toolResults ++ [⟨tc.id, "Failed to generate image"⟩] }
        | some none =>
          { acc with effects := acc.effects ++ [.imagesGenerate p] }
        | some (some url) =>
          { acc with
            effects := acc.effects ++ [.imagesGenerate p],
            generatedImageUrl := some url,
            events := acc.events ++ [.image url p],
            toolResults := acc.toolResults ++ [⟨tc.id, "Image generated successfully: " ++ url⟩] }
  else acc

/-- The `for (const toolCall of toolCalls)` loop. Iterating a sparse JS
array yields `undefined` at holes, and `toolCall.function.name` then
throws a TypeError; the Bool result records whether the loop crashed. -/
def runToolCalls (env : Env) (acc : ToolPhase) :
    List (Option ToolSlot) → ToolPhase × Bool
  | [] => (acc, false)
  | none :: _ => (acc, true)
  | some tc :: rest => runToolCalls env (stepToolCall env acc tc) rest

/-- Message of the TypeError thrown when the tool loop reads a hole. -/
def toolLoopErrorMsg : String :=
  "Cannot read properties of undefined (reading 'function')"

/-! ## System prompt construction (routes.ts lines 590-623) -/

/-- The memory block appended to the system prompt. -/
def memoryContext (memory : List String) : String :=
  "\n\nIMPORTANT - User Context (remember these facts about the user):\n" ++
    String.intercalate "\n" (memory.map (fun fact => "- " ++ fact))

/-- The image-analysis guidance appended when the turn carries an image. -/
def homeworkGuidance : String :=
  "\n\nIMAGE ANALYSIS INSTRUCTIONS:\n- Carefully examine all text, equations, diagrams, and mathematical notation in the image\n- For homework problems: Provide step-by-step solutions with clear explanations\n- For math: Show all work, explain each step, and box/highlight the final answer\n- For diagrams/graphs: Describe what you see and explain the concepts\n- For handwritten work: Read carefully and help correct any errors\n- Be thorough and educational - help the student understand the concept, not just get the answer"

/-- The persona part of the system prompt: custom persona if resolved,
fallback to the `general` prompt if a custom persona is unresolved,
otherwise the catalog prompt for the conversation's persona. -/
def basePrompt (conv : ConversationRec) (isCustom : Bool)
    (customPersona : Option CustomPersonaRec) : String :=
  if isCustom then
    match customPersona with
    | none => getPersonaSystemPrompt "general"
    | some cp => cp.systemPrompt
  else
    getPersonaSystemPrompt (if conv.persona = "" then "general" else conv.persona)

/-- Full system prompt: persona base, then the memory block when the
caller has stored memory, then image guidance when the turn has an
image. -/
def buildSystemPrompt (conv : ConversationRec) (isCustom : Bool)
    (customPersona : Option CustomPersonaRec) (user : Option UserRec)
    (hasImage : Bool) : String :=
  let base := basePrompt conv isCustom customPersona
  let withMemory :=
    match user with
    | some u => if u.memory ≠ [] then base ++ memoryContext u.memory else base
    | none => base
  if hasImage then withMemory ++ homeworkGuidance else withMemory

/-! ## The streaming handler: POST /api/messages (routes.ts 452-867) -/

/-- The placeholder persisted when the accumulated text is empty. -/
def emptyResponseText : String := "I'm sorry, I couldn't generate a response."

/-- The observable outcome of one request: HTTP response, final
anonymous-session counter, messages persisted, SSE events written and
upstream calls made, in order. -/
structure HandlerResult where
  response : HttpResponse
  sessionCount : Nat
  persisted : List PersistedMessage
  events : List SSEvent
  effects : List Effect

/-- The suggestions filter (routes.ts line 834):
`suggestions.slice(0, 3).filter(s => s && s.trim())`. -/
def filterSuggestions (l : List String) : List String :=
  (l.take 3).filter (fun s => s ≠ "" && s.trim ≠ "")

/-- The streaming phase of POST /api/messages (routes.ts 516-866), run
once validation, the rate gate, the conversation lookup, the ownership
check and the custom-persona auth check have all passed: persist the
user turn, stream, process tool calls, persist the assistant turn,
attempt suggestions and complete — or emit a single error event if the
tool loop faults. -/
def streamTurn (env : Env) (v : ValidatedData) (sc : Nat)
    (conv : ConversationRec) : HandlerResult :=
  let userMsg : PersistedMessage := ⟨v.conversationId, "user", v.content, v.imageUrl⟩
  let isCustom := conv.persona ≠ "" && jsStartsWith conv.persona "custom-"
  let customPersona :=
    match env.auth with
    | some uid => if isCustom then env.customPersonas (conv.persona.drop 7) uid else none
    | none => none
  let user := env.auth.bind env.users
  let sys := buildSystemPrompt conv isCustom customPersona user (imagePresent v)
  let prim := processPrimary env.primaryDeltas
  let events1 := [SSEvent.userMessage userMsg] ++ prim.events
  let (tp, crashed) :=
    if prim.toolCalls.length > 0 then
      runToolCalls env ⟨[], [], [], none⟩ prim.toolCalls
    else (⟨[], [], [], none⟩, false)
  if crashed then
    ⟨.sse, sc, [userMsg],
      events1 ++ tp.events ++ [.error toolLoopErrorMsg],
      [Effect.chatCall sys] ++ tp.effects⟩
  else
    let secondaryToks :=
      if tp.toolResults ≠ [] then env.finalDeltas.filter (fun s => s ≠ "") else []
    let secondaryEffects : List Effect :=
      if tp.toolResults ≠ [] then [.chatCallTools] else []
    let aiResponse := prim.aiResponse ++ String.join secondaryToks
    let aiMsg : PersistedMessage :=
      ⟨v.conversationId, "assistant",
        if aiResponse = "" then emptyResponseText else aiResponse,
        tp.generatedImageUrl⟩
    let filtered :=
      match env.suggestionsRaw with
      | none => []
      | some l => filterSuggestions l
    let sgEvents := if filtered ≠ [] then [SSEvent.suggestions filtered] else []
    ⟨.sse, sc, [userMsg, aiMsg],
      events1 ++ tp.events ++ secondaryToks.map SSEvent.token
        ++ sgEvents ++ [.complete aiMsg],
      [Effect.chatCall sys] ++ tp.effects ++ secondaryEffects
        ++ [Effect.suggestionsCall]⟩

/-- The POST /api/messages handler as a function of its environment. -/
def handleMessages (env : Env) : HandlerResult :=
  match validateMessageBody env.body with
  | .error r => ⟨r, env.sessionCount, [], [], []⟩
  | .ok v =>
    if env.auth.isNone && decide (env.sessionCount ≥ MESSAGE_LIMIT) then
      ⟨.tooMany MESSAGE_LIMIT env.sessionCount, env.sessionCount, [], [], []⟩
    else
      let sc := if env.auth.isNone then env.sessionCount + 1 else env.sessionCount
      match env.conversations v.conversationId with
      | none => ⟨.notFound, sc, [], [], []⟩
      | some conv =>
        if accessDenied env.auth conv then ⟨.forbidden, sc, [], [], []⟩
        else
          let userMsg : PersistedMessage := ⟨v.conversationId, "user", v.content, v.imageUrl⟩
          let isCustom := conv.persona ≠ "" && jsStartsWith conv.persona "custom-"
          if isCustom && env.auth.isNone then
            ⟨.unauthorizedCustom, sc, [userMsg], [], []⟩
          else
            streamTurn env v sc conv

/-! ## The poll-mode handler: POST /api/messages/poll (routes.ts 258-449)

Identical validation, rate gate, conversation and ownership checks and
system-prompt construction; tokens are buffered instead of streamed, no
tools are advertised, and one JSON body is returned. -/

/-- The buffered turn of POST /api/messages/poll after all pre-checks
passed: persist the user turn, make one chat call, buffer the text and
persist the assistant turn, returning one JSON body. -/
def pollTurn (env : Env) (v : ValidatedData) (sc : Nat)
    (conv : ConversationRec) : HandlerResult :=
  let userMsg : PersistedMessage := ⟨v.conversationId, "user", v.content, v.imageUrl⟩
  let isCustom := conv.persona ≠ "" && jsStartsWith conv.persona "custom-"
  let customPersona :=
    match env.auth with
    | some uid => if isCustom then env.customPersonas (conv.persona.drop 7) uid else none
    | none => none
  let user := env.auth.bind env.users
  let sys := buildSystemPrompt conv isCustom customPersona user (imagePresent v)
  let aiResponse :=
    String.join ((env.primaryDeltas.map (fun d => d.content)).filter (fun s => s ≠ ""))
  let aiMsg : PersistedMessage :=
    ⟨v.conversationId, "assistant",
      if aiResponse = "" then emptyResponseText else aiResponse, none⟩
  ⟨.pollOk userMsg.content aiMsg.content aiResponse, sc,
    [userMsg, aiMsg], [], [Effect.chatCall sys]⟩

/-- The POST /api/messages/poll handler. -/
def handlePollMessages (env : Env) : HandlerResult :=
  match validateMessageBody env.body with
  | .error r => ⟨r, env.sessionCount, [], [], []⟩
  | .ok v =>
    if env.auth.isNone && decide (env.sessionCount ≥ MESSAGE_LIMIT) then
      ⟨.tooMany MESSAGE_LIMIT env.sessionCount, env.sessionCount, [], [], []⟩
    else
      let sc := if env.auth.isNone then env.sessionCount + 1 else env.sessionCount
      match env.conversations v.conversationId with
      | none => ⟨.notFound, sc, [], [], []⟩
      | some conv =>
        if accessDenied env.auth conv then ⟨.forbidden, sc, [], [], []⟩
        else
          let userMsg : PersistedMessage := ⟨v.conversationId, "user", v.content, v.imageUrl⟩
          let isCustom := conv.persona ≠ "" && jsStartsWith conv.persona "custom-"
          if isCustom && env.auth.isNone then
            ⟨.unauthorizedCustom, sc, [userMsg], [], []⟩
          else
            pollTurn env v sc conv

/-! ## The debate handler: POST /api/debate (routes.ts 1651-1765) -/

/-- Environment of one debate request: the four body fields (absent
fields are `none`), the conversation lookup, and the chunks each of the
six upstream streams yields, keyed by round index and speaker
(`true` = persona 2). -/
structure DebateEnv where
  conversationId : Option String
  topic : Option String
  persona1 : Option String
  persona2 : Option String
  conversations : String → Option ConversationRec
  stream : Nat → Bool → List String

/-- Result of a debate request (the debate never touches the rate
counter, so no session field). -/
structure DebateResult where
  response : HttpResponse
  persisted : List PersistedMessage
  events : List SSEvent
  effects : List Effect

/-- `const rounds = 3` (routes.ts line 1679). -/
def debateRounds : Nat := 3

/-- The non-empty content chunks one debate stream delivers
(`if (content)` keeps only truthy chunks). -/
def debateTurnChunks (env : DebateEnv) (round : Nat) (second : Bool) : List String :=
  (env.stream round second).filter (fun s => s ≠ "")

/-- The POST /api/debate handler. -/
def handleDebate (env : DebateEnv) : DebateResult :=
  if !truthyOpt env.conversationId || !truthyOpt env.topic
      || !truthyOpt env.persona1 || !truthyOpt env.persona2 then
    ⟨.badRequest "Missing required fields", [], [], []⟩
  else if env.persona1 = env.persona2 then
    ⟨.badRequest "Personas must be different", [], [], []⟩
  else
    let cid := env.conversationId.getD ""
    match env.conversations cid with
    | none => ⟨.notFound, [], [], []⟩
    | some _ =>
      let p1 := env.persona1.getD ""
      let p2 := env.persona2.getD ""
      let name1 := debateDisplayName p1 "Persona 1"
      let name2 := debateDisplayName p2 "Persona 2"
      let roundOut := fun (round : Nat) =>
        let c1 := debateTurnChunks env round false
        let c2 := debateTurnChunks env round true
        ( [SSEvent.speaker name1] ++ c1.map (SSEvent.tokenSpeaker p1)
            ++ [SSEvent.speaker name2] ++ c2.map (SSEvent.tokenSpeaker p2),
          [Effect.chatCall (getPersonaSystemPrompt p1),
            Effect.chatCall (getPersonaSystemPrompt p2)],
          [ PersistedMessage.mk cid "assistant" ("**" ++ name1 ++ "**: " ++ String.join c1) none,
            PersistedMessage.mk cid "assistant" ("**" ++ name2 ++ "**: " ++ String.join c2) none ] )
      let outs := (List.range debateRounds).map roundOut
      ⟨.sse,
        (outs.map (fun o => o.2.2)).flatten,
        (outs.map (fun o => o.1)).flatten ++ [.debateComplete true debateRounds],
        (outs.map (fun o => o.2.1)).flatten⟩

/-! ## DELETE /api/messages/:id (routes.ts 1026-1035, storage.ts 205-207) -/

/-- A stored message row with its id, for the deletion endpoint. -/
structure StoredMessage where
  id : String
  conversationId : String
  role : String
  content : String
deriving DecidableEq, Repr

/-- `DatabaseStorage.deleteMessage`: `DELETE FROM messages WHERE id = $1`. -/
def deleteMessage (msgs : List StoredMessage) (id : String) : List StoredMessage :=
  msgs.filter (fun m => m.id ≠ id)

/-- The DELETE /api/messages/:id handler: unconditionally delete and
answer 204. The caller identity is accepted but never consulted. -/
def deleteMessageEndpoint (msgs : List StoredMessage) (_auth : Option String)
    (id : String) : List StoredMessage × HttpResponse :=
  (deleteMessage msgs id, .noContent)

/-! ## Derived notions used by the theorems -/

/-- Number of assistant rows among a list of persisted messages. -/
def countAssistant (l : List PersistedMessage) : Nat :=
  (l.filter (fun m => m.role = "assistant")).length

/-- Whether an event is the terminal `complete` event of a turn. -/
def isCompleteEvent : SSEvent → Bool
  | .complete _ => true
  | _ => false

/-- Whether an effect is a DALL-E image-generation call. -/
def isImagesGenerate : Effect → Bool
  | .imagesGenerate _ => true
  | _ => false

/-- The observed (non-hole) slots whose function name is
`generate_image`, in ascending index order. -/
def genImageSlots (arr : List (Option ToolSlot)) : List ToolSlot :=
  (arr.filterMap id).filter (fun s => s.name = "generate_image")

/-- A baseline concrete environment for witnesses: anonymous caller,
fresh session, empty storage and inert upstream oracles. -/
def envStub : Env :=
  { auth := none
    sessionCount := 0
    body := ⟨some (.str "c1"), some (.str "hello"), none⟩
    conversations := fun _ => none
    users := fun _ => none
    customPersonas := fun _ _ => none
    primaryDeltas := []
    parsePrompt := fun _ => none
    dalle := fun _ => none
    finalDeltas := []
    suggestionsRaw := none }

/-- envStub with the anonymous session already at the message limit. -/
def env15 : Env := { envStub with sessionCount := 15 }

/-- Anonymous environment whose conversation carries an unresolvable
custom persona id. -/
def envC7 : Env :=
  { envStub with
      conversations := fun cid =>
        if cid = "c1" then some ⟨none, "t", "custom-abc"⟩ else none }

/-- Authenticated environment whose conversation carries a custom
persona id that resolves to no stored custom persona. -/
def envC7auth : Env :=
  { envStub with
      auth := some "u1"
      conversations := fun cid =>
        if cid = "c1" then some ⟨some "u1", "t", "custom-xyz"⟩ else none }

/-- Concrete debate environment: two distinct catalog personas and a
one-chunk stream per turn. -/
def envDebate : DebateEnv :=
  { conversationId := some "c1"
    topic := some "cats"
    persona1 := some "teacher"
    persona2 := some "code-expert"
    conversations := fun _ => some ⟨none, "t", "general"⟩
    stream := fun _ _ => ["x"] }

/-- Concrete streaming environment that exercises a denied tool call and
a secondary stream and completes. -/
def envC1 : Env :=
  { envStub with
      conversations := fun cid => if cid = "c1" then some ⟨none, "Chat", "general"⟩ else none
      primaryDeltas := [⟨"Hi", [⟨0, "t1", "generate_image", "args"⟩]⟩]
      finalDeltas := ["more"] }

/-! ## Theorems -/

/-- C8: DELETE /api/messages/:id runs no existence, ownership or
authentication check: for every store, every caller and every id the
deletion is executed and 204 is returned, the result is independent of
the caller, and a nonexistent id still yields 204 with the store
untouched. -/
theorem c8_delete_unchecked (msgs : List StoredMessage)
    (auth auth2 : Option String) (id : String) :
    (deleteMessageEndpoint msgs auth id).2 = .noContent
    ∧ (deleteMessageEndpoint msgs auth id).1 = deleteMessage msgs id
    ∧ deleteMessageEndpoint msgs auth id = deleteMessageEndpoint msgs auth2 id
    ∧ ((∀ m ∈ msgs, m.id ≠ id) → (deleteMessageEndpoint msgs auth id).1 = msgs) := by
  refine ⟨rfl, rfl, rfl, fun h => ?_⟩
  simp only [deleteMessageEndpoint, deleteMessage]
  exact List.filter_eq_self.mpr (fun m hm => by simpa using h m hm)

/-- C8 witness: concrete instantiation with a store not containing the
deleted id and two different callers. -/
theorem c8_delete_unchecked_witness :
    (deleteMessageEndpoint [⟨"m1", "c1", "user", "hi"⟩] none "zzz").2 = .noContent
    ∧ (deleteMessageEndpoint [⟨"m1", "c1", "user", "hi"⟩] none "zzz").1 =
        deleteMessage [⟨"m1", "c1", "user", "hi"⟩] "zzz"
    ∧ deleteMessageEndpoint [⟨"m1", "c1", "user", "hi"⟩] none "zzz" =
        deleteMessageEndpoint [⟨"m1", "c1", "user", "hi"⟩] (some "u7") "zzz"
    ∧ ((∀ m ∈ [StoredMessage.mk "m1" "c1" "user" "hi"], m.id ≠ "zzz") →
        (deleteMessageEndpoint [⟨"m1", "c1", "user", "hi"⟩] none "zzz").1 =
          [⟨"m1", "c1", "user", "hi"⟩]) :=
  c8_delete_unchecked [⟨"m1", "c1", "user", "hi"⟩] none (some "u7") "zzz"

/-- C10: persona lookup is total: any id outside the catalog resolves to
the first catalog persona (general / Fizz) and its system prompt, and the
debate name lookup falls back to the literal display names. -/
theorem c10_persona_fallback (id1 id2 : String)
    (h1 : ∀ p ∈ personas, p.id ≠ id1) (h2 : ∀ p ∈ personas, p.id ≠ id2) :
    getPersonaById id1 =
      ⟨"general", "Fizz", "○", "Your versatile AI assistant for anything",
        "You are Fizz, a helpful and friendly AI assistant! 😊 Be direct and concise, but always warm and encouraging."⟩
    ∧ getPersonaSystemPrompt id1 =
        "You are Fizz, a helpful and friendly AI assistant! 😊 Be direct and concise, but always warm and encouraging."
    ∧ debateDisplayName id1 "Persona 1" = "Persona 1"
    ∧ debateDisplayName id2 "Persona 2" = "Persona 2" := by
  have hf : ∀ id, (∀ p ∈ personas, p.id ≠ id) →
      personas.find? (fun p => p.id = id) = none := by
    intro id h
    rw [List.find?_eq_none]
    intro p hp
    simpa using h p hp
  have hg : getPersonaById id1 =
      ⟨"general", "Fizz", "○", "Your versatile AI assistant for anything",
        "You are Fizz, a helpful and friendly AI assistant! 😊 Be direct and concise, but always warm and encouraging."⟩ := by
    unfold getPersonaById
    rw [hf id1 h1]
    rfl
  refine ⟨hg, ?_, ?_, ?_⟩
  · rw [getPersonaSystemPrompt, hg]
  · unfold debateDisplayName
    rw [hf id1 h1]
  · unfold debateDisplayName
    rw [hf id2 h2]

/-- C10 witness: two ids absent from the catalog. -/
theorem c10_persona_fallback_witness :
    getPersonaById "unknown-persona" =
      ⟨"general", "Fizz", "○", "Your versatile AI assistant for anything",
        "You are Fizz, a helpful and friendly AI assistant! 😊 Be direct and concise, but always warm and encouraging."⟩
    ∧ getPersonaSystemPrompt "unknown-persona" =
        "You are Fizz, a helpful and friendly AI assistant! 😊 Be direct and concise, but always warm and encouraging."
    ∧ debateDisplayName "unknown-persona" "Persona 1" = "Persona 1"
    ∧ debateDisplayName "mystery" "Persona 2" = "Persona 2" :=
  c10_persona_fallback "unknown-persona" "mystery" (by decide) (by decide)

/-- C2 counterexample: ingesting fragments for index 2 and then index 0
(the exact scenario of the claim) leaves a hole at the never-observed
index 1, and the finalization loop visits that hole and faults there —
so finalization does NOT iterate only over slots whose index was
observed. -/
theorem c2_counterexample :
    [ToolCallFragment.mk 2 "idB" "generate_image" "argB",
      ToolCallFragment.mk 0 "idA" "generate_image" "argA"].foldl ingestFragment [] =
      [some ⟨"idA", "generate_image", "argA"⟩, none, some ⟨"idB", "generate_image", "argB"⟩]
    ∧ (runToolCalls envStub ⟨[], [], [], none⟩
        ([ToolCallFragment.mk 2 "idB" "generate_image" "argB",
          ToolCallFragment.mk 0 "idA" "generate_image" "argA"].foldl ingestFragment [])).2 = true :=
  ⟨rfl, rfl⟩

/-- C2 amended: fragments arriving as index 2 before index 0 yield two
independent, correctly separated slots at positions 0 and 2 and no slot
is ever created for the skipped index 1; however, finalization iterates
over every array position up to the maximum observed index — including
the unobserved hole — and faults when it reaches the hole. -/
theorem c2_amended (f2 f0 : ToolCallFragment)
    (h2 : f2.index = 2) (h0 : f0.index = 0) :
    [f2, f0].foldl ingestFragment [] =
      [some ⟨f0.id, f0.name, f0.arguments⟩, none, some ⟨f2.id, f2.name, f2.arguments⟩]
    ∧ ∀ (env : Env) (acc : ToolPhase),
        (runToolCalls env acc ([f2, f0].foldl ingestFragment [])).2 = true := by
  obtain ⟨i2, id2, n2, a2⟩ := f2
  obtain ⟨i0, id0, n0, a0⟩ := f0
  simp only at h2 h0
  subst h2
  subst h0
  have harr : [ToolCallFragment.mk 2 id2 n2 a2,
      ToolCallFragment.mk 0 id0 n0 a0].foldl ingestFragment [] =
      [some ⟨id0, n0, a0⟩, none, some ⟨id2, n2, a2⟩] := by
    by_cases hA : a2 = "" <;> by_cases hB : a0 = "" <;>
      simp [ingestFragment, jsGet, jsSet, hA, hB]
  refine ⟨harr, fun env acc => ?_⟩
  rw [harr]
  simp [runToolCalls]

/-- C2 amended witness: concrete fragments at indices 2 and 0. -/
theorem c2_amended_witness :
    [ToolCallFragment.mk 2 "x" "generate_image" "aa",
      ToolCallFragment.mk 0 "y" "generate_image" "bb"].foldl ingestFragment [] =
      [some ⟨"y", "generate_image", "bb"⟩, none, some ⟨"x", "generate_image", "aa"⟩]
    ∧ ∀ (env : Env) (acc : ToolPhase),
        (runToolCalls env acc
          ([ToolCallFragment.mk 2 "x" "generate_image" "aa",
            ToolCallFragment.mk 0 "y" "generate_image" "bb"].foldl ingestFragment [])).2 = true :=
  c2_amended ⟨2, "x", "generate_image", "aa"⟩ ⟨0, "y", "generate_image", "bb"⟩ rfl rfl

/-- Environment whose request body has empty (but string-typed) content
and whose conversation exists, with a one-chunk upstream reply. -/
def envEmptyContent : Env :=
  { envStub with
      body := ⟨some (.str "c1"), some (.str ""), none⟩
      conversations := fun cid => if cid = "c1" then some ⟨none, "Chat", "general"⟩ else none
      primaryDeltas := [⟨"Hello!", []⟩] }

/-- C4 counterexample: a request whose content is the empty string passes
validation (the schema has no nonempty check) and the turn proceeds all
the way to streaming: the empty user message is persisted and the stream
completes — it is not rejected with a 400. -/
theorem c4_counterexample :
    validateMessageBody ⟨some (.str "c1"), some (.str ""), none⟩ =
      .ok ⟨"c1", "", none⟩
    ∧ (handleMessages envEmptyContent).response = .sse
    ∧ (handleMessages envEmptyContent).persisted =
        [⟨"c1", "user", "", none⟩, ⟨"c1", "assistant", "Hello!", none⟩] :=
  ⟨rfl, rfl, rfl⟩

/-- C4 amended: schema failures and image-format/size failures are
rejected 400-class before any SSE event, persistence, upstream call or
counter change, on both the streaming and the poll endpoint; an imageUrl
that is neither a data:image/ reference nor http(s) is rejected as
"Invalid image format" and a data URI shorter than 100 characters as
"Invalid image data"; empty-after-trim content, however, passes
validation. -/
theorem c4_amended (env : Env) (r : HttpResponse) (cid c u d : String)
    (hval : validateMessageBody env.body = .error r)
    (hu : u ≠ "" ∧ jsStartsWith u "data:image/" = false
      ∧ jsStartsWith u "http://" = false ∧ jsStartsWith u "https://" = false)
    (hd : d ≠ "" ∧ jsStartsWith d "data:image/" = true ∧ d.length < 100) :
    handleMessages env = ⟨r, env.sessionCount, [], [], []⟩
    ∧ handlePollMessages env = ⟨r, env.sessionCount, [], [], []⟩
    ∧ validateMessageBody ⟨some (.str cid), some (.str c), some (.str u)⟩ =
        .error (.badRequest "Invalid image format")
    ∧ validateMessageBody ⟨some (.str cid), some (.str c), some (.str d)⟩ =
        .error (.badRequest "Invalid image data")
    ∧ validateMessageBody ⟨some (.str cid), some (.str ""), none⟩ = .ok ⟨cid, "", none⟩ := by
  obtain ⟨hu1, hu2, hu3, hu4⟩ := hu
  obtain ⟨hd0, hd1, hd2⟩ := hd
  refine ⟨?_, ?_, ?_, ?_, rfl⟩
  · unfold handleMessages
    rw [hval]
  · unfold handlePollMessages
    rw [hval]
  · simp [validateMessageBody, clientMessageSchemaParse, hu1, hu2, hu3, hu4]
  · simp [validateMessageBody, clientMessageSchemaParse, hd0, hd1, hd2]

/-- C4 amended witness: a concrete ftp:// image URL, a concrete short
data URI, and a failing concrete body. -/
theorem c4_amended_witness :
    handleMessages { envStub with body := ⟨some (.str "c1"), some .other, none⟩ } =
      ⟨.badRequest "Invalid request data", 0, [], [], []⟩
    ∧ handlePollMessages { envStub with body := ⟨some (.str "c1"), some .other, none⟩ } =
      ⟨.badRequest "Invalid request data", 0, [], [], []⟩
    ∧ validateMessageBody ⟨some (.str "c1"), some (.str "hi"), some (.str "ftp://img")⟩ =
        .error (.badRequest "Invalid image format")
    ∧ validateMessageBody ⟨some (.str "c1"), some (.str "hi"), some (.str "data:image/png;x")⟩ =
        .error (.badRequest "Invalid image data")
    ∧ validateMessageBody ⟨some (.str "c1"), some (.str ""), none⟩ = .ok ⟨"c1", "", none⟩ :=
  c4_amended { envStub with body := ⟨some (.str "c1"), some .other, none⟩ }
    (.badRequest "Invalid request data") "c1" "hi" "ftp://img" "data:image/png;x"
    rfl (by decide) (by decide)

/-- The streaming phase reports the session counter it was given. -/
theorem streamTurn_sessionCount (env : Env) (v : ValidatedData) (sc : Nat)
    (conv : ConversationRec) : (streamTurn env v sc conv).sessionCount = sc := by
  unfold streamTurn
  dsimp only
  repeat' (first | rfl | split)

/-- C3: an anonymous session at the limit (15 prior admitted turns) has
its next request rejected 429 with no user message persisted, no
upstream call and no further increment; below the limit the counter is
read then incremented by exactly one. -/
theorem c3_anonymous_limit (env : Env) (v : ValidatedData)
    (hanon : env.auth = none)
    (hok : validateMessageBody env.body = .ok v) :
    (env.sessionCount = MESSAGE_LIMIT →
      handleMessages env = ⟨.tooMany 15 15, 15, [], [], []⟩)
    ∧ (env.sessionCount < MESSAGE_LIMIT →
      (handleMessages env).sessionCount = env.sessionCount + 1) := by
  constructor
  · intro h15
    unfold handleMessages
    rw [hok, hanon, h15]
    simp [MESSAGE_LIMIT]
  · intro hlt
    unfold handleMessages
    rw [hok, hanon]
    have hge : ¬ env.sessionCount ≥ MESSAGE_LIMIT := by
      simpa [MESSAGE_LIMIT] using hlt
    simp only [Option.isNone_none, Bool.true_and, decide_eq_true_eq, if_neg hge, if_pos trivial]
    repeat' (first | rfl | apply streamTurn_sessionCount | split)

/-- C3 witness: the concrete anonymous environment at the limit. -/
theorem c3_anonymous_limit_witness :
    handleMessages env15 = ⟨.tooMany 15 15, 15, [], [], []⟩ :=
  (c3_anonymous_limit env15 ⟨"c1", "hello", none⟩ rfl rfl).1 rfl

/-- C9: for an anonymous request below the limit, the session counter is
incremented before the conversation-existence check: naming a
nonexistent conversation is answered 404 yet still consumes one of the
15 slots (no message persisted, no upstream call), on both the streaming
and the poll endpoint. -/
theorem c9_counter_before_checks (env : Env) (v : ValidatedData)
    (hanon : env.auth = none)
    (hok : validateMessageBody env.body = .ok v)
    (hlt : env.sessionCount < MESSAGE_LIMIT)
    (hconv : env.conversations v.conversationId = none) :
    handleMessages env = ⟨.notFound, env.sessionCount + 1, [], [], []⟩
    ∧ handlePollMessages env = ⟨.notFound, env.sessionCount + 1, [], [], []⟩ := by
  have hge : ¬ env.sessionCount ≥ MESSAGE_LIMIT := by
    simpa [MESSAGE_LIMIT] using hlt
  constructor
  · unfold handleMessages
    rw [hok, hanon]
    simp only [Option.isNone_none, Bool.true_and, decide_eq_true_eq, if_neg hge, if_pos trivial]
    rw [hconv]
  · unfold handlePollMessages
    rw [hok, hanon]
    simp only [Option.isNone_none, Bool.true_and, decide_eq_true_eq, if_neg hge, if_pos trivial]
    rw [hconv]

/-- C9 witness: the baseline anonymous environment (count 0, empty
conversation store). -/
theorem c9_counter_before_checks_witness :
    handleMessages envStub = ⟨.notFound, 1, [], [], []⟩
    ∧ handlePollMessages envStub = ⟨.notFound, 1, [], [], []⟩ :=
  c9_counter_before_checks envStub ⟨"c1", "hello", none⟩ rfl rfl (by decide) rfl

/-- Under a free plan one loop step never touches effects or the image
url (it can only deny or skip). -/
theorem stepToolCall_free (env : Env) (hplan : planOf env = "free")
    (acc : ToolPhase) (tc : ToolSlot) :
    (stepToolCall env acc tc).effects = acc.effects
    ∧ (stepToolCall env acc tc).generatedImageUrl = acc.generatedImageUrl := by
  by_cases hname : tc.name = "generate_image" <;>
    simp [stepToolCall, hname, hplan]

/-- Under a free plan the whole loop — even one that faults on a hole —
never records an image call and never sets an image url. -/
theorem runToolCalls_free_effects (env : Env) (hplan : planOf env = "free")
    (arr : List (Option ToolSlot)) :
    ∀ acc : ToolPhase,
      (runToolCalls env acc arr).1.effects = acc.effects
      ∧ (runToolCalls env acc arr).1.generatedImageUrl = acc.generatedImageUrl := by
  induction arr with
  | nil => intro acc; simp [runToolCalls]
  | cons hd tl ih =>
    intro acc
    match hd with
    | none => simp [runToolCalls]
    | some tc =>
      rw [runToolCalls]
      refine ⟨?_, ?_⟩
      · rw [(ih (stepToolCall env acc tc)).1, (stepToolCall_free env hplan acc tc).1]
      · rw [(ih (stepToolCall env acc tc)).2, (stepToolCall_free env hplan acc tc).2]

/-- Under a free plan, a hole-free loop runs to completion and produces
exactly one upgrade event and one denial result per generate_image slot,
in order, with no effects and no image url. -/
theorem runToolCalls_free_plan (env : Env) (hplan : planOf env = "free")
    (arr : List (Option ToolSlot)) :
    ∀ (acc : ToolPhase), (∀ s ∈ arr, s.isSome) →
      runToolCalls env acc arr =
        ({ acc with
            events := acc.events ++ (genImageSlots arr).map (fun _ => SSEvent.upgradeRequired),
            toolResults := acc.toolResults ++
              (genImageSlots arr).map (fun s => ⟨s.id, imageDenialText⟩) }, false) := by
  induction arr with
  | nil => intro acc _; simp [runToolCalls, genImageSlots]
  | cons hd tl ih =>
    intro acc hall
    match hd with
    | none => exact absurd (hall none (by simp)) (by simp)
    | some tc =>
      have htl : ∀ s ∈ tl, s.isSome = true := fun s hs => hall s (by simp [hs])
      rw [runToolCalls, ih (stepToolCall env acc tc) htl]
      by_cases hname : tc.name = "generate_image" <;>
        simp [stepToolCall, hname, hplan, genImageSlots, List.filterMap_cons]

/-- Under a free plan the streaming phase makes no image-generation
call: its effects are only chat, possibly the tool-follow-up chat, and
the suggestions call. -/
theorem streamTurn_effects_free (env : Env) (hplan : planOf env = "free")
    (v : ValidatedData) (sc : Nat) (conv : ConversationRec) :
    ∀ e ∈ (streamTurn env v sc conv).effects, isImagesGenerate e = false := by
  intro e he
  unfold streamTurn at he
  dsimp only at he
  rcases hpair : (if (processPrimary env.primaryDeltas).toolCalls.length > 0 then
      runToolCalls env ⟨[], [], [], none⟩ (processPrimary env.primaryDeltas).toolCalls
    else ((⟨[], [], [], none⟩ : ToolPhase), false)) with ⟨tp, crashed⟩
  have htp : tp.effects = [] := by
    have h := congrArg (fun x => x.1.effects) hpair
    dsimp at h
    rw [← h]
    split
    · exact (runToolCalls_free_effects env hplan _ ⟨[], [], [], none⟩).1
    · rfl
  rw [hpair] at he
  dsimp only at he
  cases crashed
  · by_cases hres : tp.toolResults = [] <;>
      simp [htp, hres] at he <;>
      rcases he with rfl | rfl | rfl <;> rfl
  · simp [htp] at he
    subst he
    rfl

/-- C5: every finalized generate_image tool call on behalf of a free-plan
(or anonymous) caller yields an upgrade_required event and a denial
tool-result, and the image-generation API is never invoked (the handler
makes no imagesGenerate call at all). -/
theorem c5_free_plan_denied (env : Env) (arr : List (Option ToolSlot))
    (hplan : planOf env = "free") (hall : ∀ s ∈ arr, s.isSome) :
    runToolCalls env ⟨[], [], [], none⟩ arr =
      (⟨(genImageSlots arr).map (fun _ => SSEvent.upgradeRequired), [],
        (genImageSlots arr).map (fun s => ⟨s.id, imageDenialText⟩), none⟩, false)
    ∧ ∀ e ∈ (handleMessages env).effects, isImagesGenerate e = false := by
  have h1 := runToolCalls_free_plan env hplan arr ⟨[], [], [], none⟩ hall
  refine ⟨by simpa using h1, ?_⟩
  intro e he
  unfold handleMessages at he
  repeat'
    first
      | exact streamTurn_effects_free env hplan _ _ _ e he
      | exact absurd he (List.not_mem_nil e)
      | split at he
      | dsimp only at he

/-- C5 witness: anonymous baseline environment and one generate_image
slot. -/
theorem c5_free_plan_denied_witness :
    runToolCalls envStub ⟨[], [], [], none⟩ [some ⟨"t1", "generate_image", "a"⟩] =
      (⟨[.upgradeRequired], [], [⟨"t1", imageDenialText⟩], none⟩, false)
    ∧ ∀ e ∈ (handleMessages envStub).effects, isImagesGenerate e = false :=
  c5_free_plan_denied envStub [some ⟨"t1", "generate_image", "a"⟩] rfl (by decide)

/-- The streaming phase opens with the chat call carrying the built
system prompt, and its response is the SSE stream. -/
theorem streamTurn_opening (env : Env) (v : ValidatedData) (sc : Nat)
    (conv : ConversationRec) :
    (streamTurn env v sc conv).effects.head? =
      some (.chatCall (buildSystemPrompt conv
        (conv.persona ≠ "" && jsStartsWith conv.persona "custom-")
        (match env.auth with
          | some uid =>
            if conv.persona ≠ "" && jsStartsWith conv.persona "custom-" then
              env.customPersonas (conv.persona.drop 7) uid
            else none
          | none => none)
        (env.auth.bind env.users) (imagePresent v)))
    ∧ (streamTurn env v sc conv).response = .sse := by
  constructor <;>
    (unfold streamTurn; dsimp only; repeat' (first | rfl | split))

/-- C7 counterexample: an anonymous turn on a conversation with an
unresolvable custom persona is aborted with a 401 — no fallback
streaming happens, no upstream call is made — on both endpoints. So a
turn CAN be aborted because of an unresolved custom persona. -/
theorem c7_counterexample :
    (handleMessages envC7).response = .unauthorizedCustom
    ∧ (handleMessages envC7).events = []
    ∧ (handleMessages envC7).effects = []
    ∧ (handlePollMessages envC7).response = .unauthorizedCustom :=
  ⟨rfl, rfl, rfl, rfl⟩

/-- C7 amended: for AUTHENTICATED callers an unresolvable custom persona
degrades to the default general system directive and the turn proceeds
(the opening chat call carries the general prompt; the poll turn runs to
completion persisting both messages); for ANONYMOUS callers, a custom-
persona conversation aborts the turn with a 401 after persisting only
the user message. -/
theorem c7_amended (env : Env) (v : ValidatedData) (conv : ConversationRec)
    (uid : String)
    (hauth : env.auth = some uid)
    (hok : validateMessageBody env.body = .ok v)
    (hconv : env.conversations v.conversationId = some conv)
    (hpne : conv.persona ≠ "")
    (hcust : jsStartsWith conv.persona "custom-" = true)
    (hmiss : env.customPersonas (conv.persona.drop 7) uid = none)
    (hown : accessDenied env.auth conv = false)
    (hmem : ∀ u, env.users uid = some u → u.memory = [])
    (hnoimg : v.imageUrl = none) :
    ((handleMessages env).effects.head? =
        some (.chatCall (getPersonaSystemPrompt "general"))
      ∧ (handleMessages env).response = .sse)
    ∧ ((handlePollMessages env).effects =
        [.chatCall (getPersonaSystemPrompt "general")]
      ∧ (handlePollMessages env).persisted.length = 2)
    ∧ (∀ (envA : Env) (vA : ValidatedData) (convA : ConversationRec),
        envA.auth = none →
        validateMessageBody envA.body = .ok vA →
        envA.sessionCount < MESSAGE_LIMIT →
        envA.conversations vA.conversationId = some convA →
        convA.persona ≠ "" →
        jsStartsWith convA.persona "custom-" = true →
        handleMessages envA = ⟨.unauthorizedCustom, envA.sessionCount + 1,
          [⟨vA.conversationId, "user", vA.content, vA.imageUrl⟩], [], []⟩) := by
  have hown' : accessDenied (some uid) conv = false := by
    rw [← hauth]
    exact hown
  have hsys : buildSystemPrompt conv
      (conv.persona ≠ "" && jsStartsWith conv.persona "custom-")
      (match env.auth with
        | some uid' =>
          if conv.persona ≠ "" && jsStartsWith conv.persona "custom-" then
            env.customPersonas (conv.persona.drop 7) uid'
          else none
        | none => none)
      (env.auth.bind env.users) (imagePresent v) = getPersonaSystemPrompt "general" := by
    rw [hauth]
    unfold buildSystemPrompt basePrompt
    simp only [hpne, hcust, hmiss, Option.some_bind]
    cases hu : env.users uid <;>
      simp [hu, hpne, hcust, hmiss, hmem, hnoimg, imagePresent]
  have hred : handleMessages env = streamTurn env v env.sessionCount conv := by
    unfold handleMessages
    rw [hok]
    dsimp only
    rw [hauth, hconv]
    simp [hown']
  have hredPoll : handlePollMessages env = pollTurn env v env.sessionCount conv := by
    unfold handlePollMessages
    rw [hok]
    dsimp only
    rw [hauth, hconv]
    simp [hown']
  refine ⟨?_, ⟨?_, ?_⟩, ?_⟩
  · rw [hred]
    have h := streamTurn_opening env v env.sessionCount conv
    rw [hsys] at h
    exact h
  · rw [hredPoll]
    show [Effect.chatCall _] = _
    rw [hsys]
  · rw [hredPoll]
    rfl
  · intro envA vA convA hanonA hokA hltA hconvA hpneA hcustA
    have hgeA : ¬ envA.sessionCount ≥ MESSAGE_LIMIT := by
      simpa [MESSAGE_LIMIT] using hltA
    unfold handleMessages
    rw [hokA]
    dsimp only
    rw [hanonA, hconvA]
    simp [hgeA, accessDenied, hpneA, hcustA]

/-- C7 amended witness: concrete authenticated environment with an
unresolvable custom persona, plus the anonymous instance. -/
theorem c7_amended_witness :
    ((handleMessages envC7auth).effects.head? =
        some (.chatCall (getPersonaSystemPrompt "general"))
      ∧ (handleMessages envC7auth).response = .sse)
    ∧ ((handlePollMessages envC7auth).effects =
        [.chatCall (getPersonaSystemPrompt "general")]
      ∧ (handlePollMessages envC7auth).persisted.length = 2)
    ∧ (∀ (envA : Env) (vA : ValidatedData) (convA : ConversationRec),
        envA.auth = none →
        validateMessageBody envA.body = .ok vA →
        envA.sessionCount < MESSAGE_LIMIT →
        envA.conversations vA.conversationId = some convA →
        convA.persona ≠ "" →
        jsStartsWith convA.persona "custom-" = true →
        handleMessages envA = ⟨.unauthorizedCustom, envA.sessionCount + 1,
          [⟨vA.conversationId, "user", vA.content, vA.imageUrl⟩], [], []⟩) :=
  c7_amended envC7auth ⟨"c1", "hello", none⟩ ⟨some "u1", "t", "custom-xyz"⟩ "u1"
    rfl rfl rfl (by decide) (by decide) rfl (by decide)
    (fun u hu => by simp [envC7auth, envStub] at hu) rfl

/-- C6: a debate whose two personas are identical is rejected 400 before
any model call or persistence; with distinct personas and an existing
conversation, exactly 6 assistant messages are persisted (3 rounds × 2
speakers), each prefixed with its speaker's display name, and the
stream ends with a complete event carrying the round count. -/
theorem c6_debate (env : DebateEnv)
    (ht1 : truthyOpt env.conversationId = true) (ht2 : truthyOpt env.topic = true)
    (ht3 : truthyOpt env.persona1 = true) (ht4 : truthyOpt env.persona2 = true) :
    (env.persona1 = env.persona2 →
      handleDebate env = ⟨.badRequest "Personas must be different", [], [], []⟩)
    ∧ (env.persona1 ≠ env.persona2 →
      ∀ conv, env.conversations (env.conversationId.getD "") = some conv →
        (handleDebate env).persisted =
          [ ⟨env.conversationId.getD "", "assistant",
              "**" ++ debateDisplayName (env.persona1.getD "") "Persona 1" ++ "**: "
                ++ String.join (debateTurnChunks env 0 false), none⟩,
            ⟨env.conversationId.getD "", "assistant",
              "**" ++ debateDisplayName (env.persona2.getD "") "Persona 2" ++ "**: "
                ++ String.join (debateTurnChunks env 0 true), none⟩,
            ⟨env.conversationId.getD "", "assistant",
              "**" ++ debateDisplayName (env.persona1.getD "") "Persona 1" ++ "**: "
                ++ String.join (debateTurnChunks env 1 false), none⟩,
            ⟨env.conversationId.getD "", "assistant",
              "**" ++ debateDisplayName (env.persona2.getD "") "Persona 2" ++ "**: "
                ++ String.join (debateTurnChunks env 1 true), none⟩,
            ⟨env.conversationId.getD "", "assistant",
              "**" ++ debateDisplayName (env.persona1.getD "") "Persona 1" ++ "**: "
                ++ String.join (debateTurnChunks env 2 false), none⟩,
            ⟨env.conversationId.getD "", "assistant",
              "**" ++ debateDisplayName (env.persona2.getD "") "Persona 2" ++ "**: "
                ++ String.join (debateTurnChunks env 2 true), none⟩ ]
        ∧ (handleDebate env).persisted.length = 6
        ∧ (handleDebate env).events.getLast? = some (.debateComplete true debateRounds)
        ∧ (handleDebate env).response = .sse) := by
  constructor
  · intro heq
    unfold handleDebate
    simp [ht1, ht2, ht3, ht4, heq]
  · intro hne conv hconv
    have hguard : (!truthyOpt env.conversationId || !truthyOpt env.topic
        || !truthyOpt env.persona1 || !truthyOpt env.persona2) = false := by
      rw [ht1, ht2, ht3, ht4]
      rfl
    unfold handleDebate
    rw [hguard]
    simp only [Bool.false_eq_true, if_false, if_neg hne]
    rw [hconv]
    refine ⟨rfl, rfl, ?_, rfl⟩
    exact List.getLast?_concat _

/-- C6 witness: concrete debate between Patient Teacher and Code Expert:
six messages persisted and a final complete event with 3 rounds. -/
theorem c6_debate_witness :
    (handleDebate envDebate).persisted.length = 6
    ∧ (handleDebate envDebate).events.getLast? =
        some (.debateComplete true debateRounds) := by
  have h := (c6_debate envDebate rfl rfl rfl rfl).2 (by decide)
    ⟨none, "t", "general"⟩ rfl
  exact ⟨h.2.1, h.2.2.1⟩

/-- The primary stream loop only ever emits token events: no complete
event can come from it. -/
theorem processPrimary_no_complete (deltas : List StreamDelta) :
    ∀ e ∈ (processPrimary deltas).events, isCompleteEvent e = false := by
  suffices h : ∀ acc : PrimaryAcc, (∀ e ∈ acc.events, isCompleteEvent e = false) →
      ∀ e ∈ (deltas.foldl stepDelta acc).events, isCompleteEvent e = false by
    exact h ⟨"", [], []⟩ (by simp)
  induction deltas with
  | nil => intro acc hacc; simpa using hacc
  | cons d tl ih =>
    intro acc hacc
    rw [List.foldl_cons]
    apply ih
    intro e he
    unfold stepDelta at he
    dsimp only at he
    split at he
    · exact hacc e he
    · rcases List.mem_append.mp he with hm | hm
      · exact hacc e hm
      · simp at hm
        subst hm
        rfl

/-- The tool loop only ever emits upgrade and image events: no complete
event can come from it. -/
theorem runToolCalls_no_complete (env : Env) (arr : List (Option ToolSlot)) :
    ∀ acc : ToolPhase, (∀ e ∈ acc.events, isCompleteEvent e = false) →
      ∀ e ∈ (runToolCalls env acc arr).1.events, isCompleteEvent e = false := by
  induction arr with
  | nil => intro acc hacc; simpa [runToolCalls] using hacc
  | cons hd tl ih =>
    intro acc hacc
    match hd with
    | none => simpa [runToolCalls] using hacc
    | some tc =>
      rw [runToolCalls]
      apply ih
      intro e he
      unfold stepToolCall at he
      dsimp only at he
      repeat' split at he
      all_goals try exact hacc e he
      all_goals
        rcases List.mem_append.mp he with hm | hm
      all_goals try exact hacc e hm
      all_goals simp at hm
      all_goals subst hm
      all_goals rfl

/-- The streaming phase persists exactly one assistant message whenever
it reaches its complete event. -/
theorem streamTurn_one_assistant (env : Env) (v : ValidatedData) (sc : Nat)
    (conv : ConversationRec)
    (h : (streamTurn env v sc conv).events.any isCompleteEvent = true) :
    countAssistant (streamTurn env v sc conv).persisted = 1 := by
  unfold streamTurn at h ⊢
  dsimp only at h ⊢
  set pr := (if (processPrimary env.primaryDeltas).toolCalls.length > 0 then
      runToolCalls env ⟨[], [], [], none⟩ (processPrimary env.primaryDeltas).toolCalls
    else ((⟨[], [], [], none⟩ : ToolPhase), false)) with hpr
  have htp : ∀ e ∈ pr.1.events, isCompleteEvent e = false := by
    intro e he
    rw [hpr] at he
    revert he
    split
    · intro he
      exact runToolCalls_no_complete env _ ⟨[], [], [], none⟩ (by simp) e he
    · intro he
      simp at he
  have hprim : ∀ e ∈ (processPrimary env.primaryDeltas).events,
      isCompleteEvent e = false := processPrimary_no_complete _
  by_cases hcr : pr.2 = true
  · exfalso
    rw [if_pos hcr] at h
    simp only [List.any_append, List.any_cons, List.any_nil, Bool.or_eq_true,
      List.any_eq_true, Bool.false_eq_true, false_or, or_false] at h
    rcases h with ((h | ⟨e, he, hc⟩) | ⟨e, he, hc⟩) | h
    · simp [isCompleteEvent] at h
    · rw [hprim e he] at hc
      exact Bool.false_ne_true hc
    · rw [htp e he] at hc
      exact Bool.false_ne_true hc
    · simp [isCompleteEvent] at h
  · rw [if_neg hcr]
    rfl

/-- Every run of POST /api/messages either stops before streaming with
no events, or runs the streaming phase. -/
theorem handleMessages_shape (env : Env) :
    (handleMessages env).events = []
    ∨ ∃ v sc conv, handleMessages env = streamTurn env v sc conv := by
  unfold handleMessages
  repeat'
    first
      | (left; rfl)
      | (right; exact ⟨_, _, _, rfl⟩)
      | split
      | dsimp only

/-- C1: whenever a turn of the streaming endpoint reaches its complete
event — with or without tool calls and a secondary stream — exactly one
assistant message has been persisted. -/
theorem c1_single_assistant (env : Env)
    (h : (handleMessages env).events.any isCompleteEvent = true) :
    countAssistant (handleMessages env).persisted = 1 := by
  rcases handleMessages_shape env with hsh | ⟨v, sc, conv, hsh⟩
  · rw [hsh] at h
    simp at h
  · rw [hsh] at h ⊢
    exact streamTurn_one_assistant env v sc conv h

/-- C1 witness: a concrete completed turn with a (denied) tool call and
a secondary stream. -/
theorem c1_single_assistant_witness :
    countAssistant (handleMessages envC1).persisted = 1 :=
  c1_single_assistant envC1 rfl

end Fizz
